import Mathlib

/-!
Verification of the ClimateCoach browser dashboard controller
(`src/app/static/js/scripts.js`) against its specification.

The JavaScript is shallowly embedded: numbers are modelled as rationals
(`ℚ`), `parseFloat` results as `Option ℚ` (`none` = NaN), DOM side effects
as explicit event lists, and timer-driven flows as timestamped traces.
-/

namespace ClimateCoach

/-- Severity of a toast notification (`showToast`'s `type` argument). -/
inductive ToastType where
  | info
  | success
  | error
deriving DecidableEq, Repr

/-- A toast as emitted by `showToast(message, type)`. -/
structure Toast where
  message : String
  ttype : ToastType
deriving DecidableEq, Repr

/-!
### Location form submission (`handleLocationSubmission`, scripts.js 280–297)

The form data read from the DOM: `name`, `address`, `propertyType` are raw
strings; `latitude` and `longitude` are the results of `parseFloat` on the
field text, modelled as `Option ℚ` where `none` stands for NaN (the field
text did not parse as a number).
-/

structure LocationForm where
  name : String
  address : String
  latitude : Option ℚ
  longitude : Option ℚ
  propertyType : String
deriving DecidableEq, Repr

/-- JavaScript truthiness of a `parseFloat` result: NaN and 0 (and -0) are
falsy, every other number is truthy.  This is the test the guard
`!formData.latitude` performs. -/
def numTruthy : Option ℚ → Bool
  | none => false
  | some q => q != 0

/-- Outcome of one run of `handleLocationSubmission`: the toasts it emits
itself, how many network calls it issues, and whether control reached the
submission step (`submitLocationData`). -/
structure SubmissionOutcome where
  toasts : List Toast
  networkCalls : ℕ
  proceeded : Bool
deriving DecidableEq, Repr

/-- `handleLocationSubmission` (scripts.js 280–297): reads the form, then
`if (!formData.name || !formData.latitude || !formData.longitude)` shows one
error toast and returns; otherwise it calls `submitLocationData`.  Neither
branch performs a network call (the submit step is a simulated timeout). -/
def handleLocationSubmission (f : LocationForm) : SubmissionOutcome :=
  if f.name.isEmpty || !numTruthy f.latitude || !numTruthy f.longitude then
    { toasts := [⟨"Please fill in all required fields", ToastType.error⟩],
      networkCalls := 0,
      proceeded := false }
  else
    { toasts := [], networkCalls := 0, proceeded := true }

/-- C1: a submission with an empty name, or a latitude or longitude that does
not parse as a number, is rejected with exactly one error toast
"Please fill in all required fields", zero network calls, and does not
proceed to the submission step. -/
theorem c1_invalid_form_rejected (f : LocationForm)
    (h : f.name = "" ∨ f.latitude = none ∨ f.longitude = none) :
    handleLocationSubmission f =
      { toasts := [⟨"Please fill in all required fields", ToastType.error⟩],
        networkCalls := 0,
        proceeded := false } := by
  unfold handleLocationSubmission
  rcases h with h | h | h <;> simp [h, numTruthy, String.isEmpty_iff]

/-- Witness for C1 at the concrete form whose latitude text failed to parse. -/
theorem c1_invalid_form_rejected_witness :
    handleLocationSubmission ⟨"Home", "", none, some (-80.19 : ℚ), "residential"⟩ =
      { toasts := [⟨"Please fill in all required fields", ToastType.error⟩],
        networkCalls := 0,
        proceeded := false } :=
  c1_invalid_form_rejected ⟨"Home", "", none, some (-80.19 : ℚ), "residential"⟩
    (Or.inr (Or.inl rfl))

/-- C8: the guard `!formData.latitude` uses JavaScript truthiness, so a
latitude field reading "0" — which parses perfectly well as the number 0 —
is rejected as if it were missing.  At the concrete input
name "Home", latitude 0, longitude -80.19, all three required fields are
present and numeric, yet the code emits the "Please fill in all required
fields" error toast and never reaches the submission step. -/
theorem c8_zero_latitude_rejected :
    handleLocationSubmission ⟨"Home", "", some 0, some (-80.19 : ℚ), "residential"⟩ =
      { toasts := [⟨"Please fill in all required fields", ToastType.error⟩],
        networkCalls := 0,
        proceeded := false } := by
  decide

/-!
### Toast queue (`showToast`, scripts.js 516–540)

The toast container is the ordered list of attached toast ids.  `showToast`
appends a new toast node and schedules `setTimeout(() => { if
(toast.parentElement) toast.remove(); }, 5000)`.  The close button's handler
is `this.parentElement.remove()`: `this` is the button, its `parentElement`
is the toast node, and DOM `remove()` on a detached node is a no-op.
-/

structure ToastState where
  container : List ℕ
deriving DecidableEq, Repr

/-- `toastContainer.appendChild(toast)`: the new toast becomes the last
child of the container. -/
def appendToast (s : ToastState) (id : ℕ) : ToastState :=
  ⟨s.container ++ [id]⟩

/-- DOM `Element.remove()` on the toast node: detaches it if attached,
does nothing (and does not fault) otherwise. -/
def removeToastNode (s : ToastState) (id : ℕ) : ToastState :=
  ⟨s.container.filter (fun j => j ≠ id)⟩

/-- The body of the 5000 ms TTL timer: `if (toast.parentElement)
toast.remove();` — removal guarded on the toast still being attached. -/
def ttlFire (s : ToastState) (id : ℕ) : ToastState :=
  if id ∈ s.container then removeToastNode s id else s

/-- The close button's click handler: `this.parentElement.remove()`. -/
def dismissToast (s : ToastState) (id : ℕ) : ToastState :=
  removeToastNode s id

/-- C4: a toast created by `showToast` is appended to the container
immediately (it is the last child); if never dismissed, its own TTL timer
removes it when it fires at 5000 ms; explicit dismissal removes it
immediately, after which the pending TTL timer's guarded body is a no-op
(no second removal occurs); dismissing an already-dismissed toast is also a
no-op and never faults. -/
theorem c4_toast_lifecycle (s : ToastState) (id : ℕ) (hfresh : id ∉ s.container) :
    ((appendToast s id).container.getLast? = some id) ∧
    ((ttlFire (appendToast s id) id) = s) ∧
    (id ∉ (ttlFire (appendToast s id) id).container) ∧
    ((dismissToast (appendToast s id) id) = s) ∧
    (id ∉ (dismissToast (appendToast s id) id).container) ∧
    (ttlFire (dismissToast (appendToast s id) id) id =
      dismissToast (appendToast s id) id) ∧
    (dismissToast (dismissToast (appendToast s id) id) id =
      dismissToast (appendToast s id) id) := by
  obtain ⟨c⟩ := s
  simp only [ToastState.mk.injEq] at hfresh ⊢
  have hfilter : c.filter (fun j => j ≠ id) = c := by
    apply List.filter_eq_self.mpr
    intro a ha
    simp only [ne_eq, decide_eq_true_eq]
    exact fun h => hfresh (h ▸ ha)
  have hrem : removeToastNode (appendToast ⟨c⟩ id) id = ⟨c⟩ := by
    simp only [removeToastNode, appendToast, List.filter_append,
      ToastState.mk.injEq]
    have hid : List.filter (fun j => decide (j ≠ id)) [id] = [] := by simp
    rw [hid, List.append_nil]
    exact hfilter
  have hself : removeToastNode (⟨c⟩ : ToastState) id = ⟨c⟩ := by
    simp only [removeToastNode, ToastState.mk.injEq]
    exact hfilter
  have hmem : id ∈ (appendToast (⟨c⟩ : ToastState) id).container := by
    simp [appendToast]
  have h2 : ttlFire (appendToast ⟨c⟩ id) id = ⟨c⟩ := by
    simp only [ttlFire]
    rw [if_pos hmem]
    exact hrem
  have h4 : dismissToast (appendToast ⟨c⟩ id) id = ⟨c⟩ := hrem
  refine ⟨?_, h2, ?_, h4, ?_, ?_, ?_⟩
  · simp [appendToast]
  · rw [h2]; exact hfresh
  · rw [h4]; exact hfresh
  · rw [h4]
    simp only [ttlFire]
    rw [if_neg hfresh]
  · rw [h4]
    exact hself

/-- Witness for C4: the lifecycle facts at the empty container and toast 0. -/
theorem c4_toast_lifecycle_witness :
    (0 : ℕ) ∉ (ToastState.mk []).container ∧
    ((appendToast ⟨[]⟩ 0).container.getLast? = some 0 ∧
      ttlFire (appendToast ⟨[]⟩ 0) 0 = ⟨[]⟩ ∧
      dismissToast (appendToast ⟨[]⟩ 0) 0 = ⟨[]⟩) :=
  ⟨by decide,
    (c4_toast_lifecycle ⟨[]⟩ 0 (by decide)).1,
    (c4_toast_lifecycle ⟨[]⟩ 0 (by decide)).2.1,
    (c4_toast_lifecycle ⟨[]⟩ 0 (by decide)).2.2.2.1⟩

/-!
### Location submit flow (`submitLocationData`, scripts.js 299–314)

Effects are recorded as a timestamped trace: the info toast fires
synchronously, and a single `setTimeout(..., 1500)` callback then emits the
success toast, hides the modal, resets the form and reloads the dashboard,
in that source order.
-/

inductive Effect where
  | toast (message : String) (ttype : ToastType)
  | hideTargetModal (domId : String)
  | resetForm
  | loadDashboard
deriving DecidableEq, Repr

/-- One scheduled timer: a delay and the effects its callback performs in
order. -/
structure Scheduled where
  delay : ℕ
  actions : List Effect
deriving DecidableEq, Repr

/-- A straight-line flow: effects performed synchronously, plus timers it
schedules. -/
structure FlowSpec where
  immediate : List Effect
  timers : List Scheduled
deriving DecidableEq, Repr

/-- `submitLocationData` (scripts.js 299–314), transcribed: show the
"Adding location..." info toast, then `setTimeout` 1500 ms whose callback
shows the success toast, hides `location-modal`, resets the form and calls
`loadDashboardData()`. -/
def submitLocationDataFlow : FlowSpec :=
  { immediate := [Effect.toast "Adding location..." ToastType.info],
    timers :=
      [⟨1500,
        [Effect.toast "Location added successfully!" ToastType.success,
         Effect.hideTargetModal "location-modal",
         Effect.resetForm,
         Effect.loadDashboard]⟩] }

/-- Timer semantics for a flow started at absolute time `t0`: synchronous
effects happen at `t0`; each timer's effects happen at `t0 + delay`, in
callback order. -/
def runFlow (t0 : ℕ) (fs : FlowSpec) : List (ℕ × Effect) :=
  fs.immediate.map (fun e => (t0, e)) ++
    fs.timers.flatMap (fun s => s.actions.map (fun e => (t0 + s.delay, e)))

/-- C6: a validated location submission emits the "Adding location..." info
toast at once, and after a fixed 1500 ms delay emits the
"Location added successfully!" success toast, hides the location modal,
resets the form and re-triggers the dashboard load, in that order. -/
theorem c6_submit_flow (t0 : ℕ) :
    runFlow t0 submitLocationDataFlow =
      [(t0, Effect.toast "Adding location..." ToastType.info),
       (t0 + 1500, Effect.toast "Location added successfully!" ToastType.success),
       (t0 + 1500, Effect.hideTargetModal "location-modal"),
       (t0 + 1500, Effect.resetForm),
       (t0 + 1500, Effect.loadDashboard)] ∧
    t0 < t0 + 1500 := by
  constructor
  · rfl
  · omega

/-!
### Chart controller (`updateChartData`, `generateDateLabels`,
`generateTemperatureData`, scripts.js 316–366)

Calendar days are modelled as integers (`now` = today's day index); the
locale formatting `toLocaleDateString('en-US', ...)` is an abstract
function `fmt` from a day to its label string.  `Math.random()` is an
abstract draw sequence `rand : ℕ → ℚ` with values in `[0, 1)`.
-/

/-- The day index shown at position `k` of the label list: the JS loop runs
`i = days-1` down to `0` pushing the day `now - i`, so position `k` holds
day `now - (days - 1 - k)`. -/
def labelDays (now : ℤ) (days : ℕ) : List ℤ :=
  (List.range days).map (fun (k : ℕ) => now - ((days : ℤ) - 1 - (k : ℤ)))

/-- `generateDateLabels(days)` (scripts.js 316–327): the formatted labels of
the `days` consecutive days ending today, oldest first. -/
def generateDateLabels (fmt : ℤ → String) (now : ℤ) (days : ℕ) : List String :=
  (labelDays now days).map fmt

/-- `generateTemperatureData(days)` (scripts.js 329–339): each value is
`baseTemp + (Math.random() - 0.5) * 8` with `baseTemp = 24.5`. -/
def generateTemperatureData (rand : ℕ → ℚ) (days : ℕ) : List ℚ :=
  (List.range days).map (fun i => (24.5 : ℚ) + (rand i - 0.5) * 8)

/-- The `switch (timeRange)` of `updateChartData` (scripts.js 341–359). -/
def rangeToDays (r : String) : ℕ :=
  if r = "7d" then 7
  else if r = "30d" then 30
  else if r = "90d" then 90
  else if r = "1y" then 365
  else 30

/-- The chart's data object: paired label and value series. -/
structure ChartData where
  labels : List String
  values : List ℚ
deriving DecidableEq, Repr

/-- `updateChartData(timeRange)` (scripts.js 341–366): fully regenerates
both series for the selected range and redraws. -/
def updateChartData (fmt : ℤ → String) (now : ℤ) (rand : ℕ → ℚ)
    (r : String) : ChartData :=
  { labels := generateDateLabels fmt now (rangeToDays r),
    values := generateTemperatureData rand (rangeToDays r) }

/-- Position `k` of the regenerated labels holds the day
`now - (days - 1 - k)`. -/
theorem labelDays_get (now : ℤ) (days k : ℕ) (hk : k < days) :
    (labelDays now days).get? k = some (now - ((days : ℤ) - 1 - k)) := by
  unfold labelDays
  rw [List.get?_map, List.get?_range hk]
  rfl

/-- `rangeToDays` is always positive (its smallest outcome is 7). -/
theorem rangeToDays_pos (r : String) : 0 < rangeToDays r := by
  unfold rangeToDays
  split
  · norm_num
  · split
    · norm_num
    · split
      · norm_num
      · split <;> norm_num

/-- C5: `updateChartData` maps the tokens 7d, 30d, 90d, 1y and any other
token to 7, 30, 90, 365 and 30 points respectively; the regenerated label
and value arrays always have that same length (paired index-for-index);
and position `k` of the labels is the formatted day `now - (days-1-k)`, so
labels are one per day, oldest first, ending on the current day `now`. -/
theorem c5_range_regeneration (r : String) (fmt : ℤ → String) (now : ℤ)
    (rand : ℕ → ℚ) :
    ((r = "7d" → rangeToDays r = 7) ∧
     (r = "30d" → rangeToDays r = 30) ∧
     (r = "90d" → rangeToDays r = 90) ∧
     (r = "1y" → rangeToDays r = 365) ∧
     (r ≠ "7d" → r ≠ "30d" → r ≠ "90d" → r ≠ "1y" → rangeToDays r = 30)) ∧
    (updateChartData fmt now rand r).labels.length = rangeToDays r ∧
    (updateChartData fmt now rand r).values.length = rangeToDays r ∧
    (∀ k : ℕ, k < rangeToDays r →
      (updateChartData fmt now rand r).labels.get? k =
        some (fmt (now - ((rangeToDays r : ℤ) - 1 - k)))) ∧
    (updateChartData fmt now rand r).labels.get? (rangeToDays r - 1) =
      some (fmt now) := by
  refine ⟨⟨?_, ?_, ?_, ?_, ?_⟩, ?_, ?_, ?_, ?_⟩
  · intro h; simp [rangeToDays, h]
  · intro h; simp [rangeToDays, h]
  · intro h; simp [rangeToDays, h]
  · intro h; simp [rangeToDays, h]
  · intro h1 h2 h3 h4; simp [rangeToDays, h1, h2, h3, h4]
  · simp only [updateChartData, generateDateLabels, labelDays,
      List.length_map, List.length_range]
  · simp only [updateChartData, generateTemperatureData, List.length_map,
      List.length_range]
  · intro k hk
    show ((labelDays now (rangeToDays r)).map fmt).get? k = _
    rw [List.get?_map, labelDays_get now (rangeToDays r) k hk]
    rfl
  · have hpos := rangeToDays_pos r
    have hk : rangeToDays r - 1 < rangeToDays r := by omega
    show ((labelDays now (rangeToDays r)).map fmt).get? (rangeToDays r - 1) =
      some (fmt now)
    rw [List.get?_map, labelDays_get now (rangeToDays r) _ hk]
    have heq : now - ((rangeToDays r : ℤ) - 1 - ((rangeToDays r - 1 : ℕ) : ℤ)) =
        now := by omega
    rw [heq]
    rfl

/-- Witness for C5 at the concrete token "7d": 7 points, last label is
today. -/
theorem c5_range_regeneration_witness :
    rangeToDays "7d" = 7 ∧
    (updateChartData (fun d => toString d) 0 (fun _ => 0) "7d").labels.length =
      rangeToDays "7d" ∧
    (updateChartData (fun d => toString d) 0 (fun _ => 0) "7d").labels.get?
        (rangeToDays "7d" - 1) = some (toString (0 : ℤ)) :=
  ⟨(c5_range_regeneration "7d" (fun d => toString d) 0 (fun _ => 0)).1.1 rfl,
   (c5_range_regeneration "7d" (fun d => toString d) 0 (fun _ => 0)).2.1,
   (c5_range_regeneration "7d" (fun d => toString d) 0 (fun _ => 0)).2.2.2.2⟩

/-- C9: every value produced by `generateTemperatureData` under draws in
`[0, 1)` lies within 4.0 of the base 24.5. -/
theorem c9_temperature_bounded (rand : ℕ → ℚ) (days : ℕ)
    (h : ∀ i, 0 ≤ rand i ∧ rand i < 1) :
    ∀ v ∈ generateTemperatureData rand days, |v - (24.5 : ℚ)| ≤ 4 := by
  intro v hv
  simp only [generateTemperatureData, List.mem_map, List.mem_range] at hv
  obtain ⟨i, _, rfl⟩ := hv
  obtain ⟨h0, h1⟩ := h i
  rw [abs_le]
  constructor <;> nlinarith

/-- Witness for C9 with the constant draw 1/2 over 3 days. -/
theorem c9_temperature_bounded_witness :
    (∀ i : ℕ, 0 ≤ (fun _ : ℕ => (1 : ℚ) / 2) i ∧
      (fun _ : ℕ => (1 : ℚ) / 2) i < 1) ∧
    ∀ v ∈ generateTemperatureData (fun _ => (1 : ℚ) / 2) 3,
      |v - (24.5 : ℚ)| ≤ 4 :=
  ⟨fun _ => by norm_num,
   c9_temperature_bounded (fun _ => (1 : ℚ) / 2) 3 (fun _ => by norm_num)⟩

/-!
### Stat animator (`animateNumber`, scripts.js 495–514)

Each tick computes `progress = Math.min(elapsed / duration, 1)`,
`current = start + range * progress`, and writes
`element.textContent = current.toFixed(1)`; when `progress >= 1` it then
overwrites the text with `end.toString()`.  Numbers are modelled as
rationals and `toFixed(1)` as exact rounding to one decimal digit
(ECMAScript picks the candidate `n/10` closest to the value, ties toward
the larger `n`, i.e. `n = ⌊10·x + 1/2⌋`).
-/

/-- ECMAScript `Number.prototype.toFixed(1)` as a rational: the 1-decimal
value nearest to `x`, ties resolved toward the larger numerator. -/
def jsToFixed1 (x : ℚ) : ℚ :=
  ((⌊10 * x + 1 / 2⌋ : ℤ) : ℚ) / 10

/-- The value displayed by `animateNumber(element, start, end, duration)`
after the tick at time `elapsed`: the 1-decimal rendering of the linear
interpolation while `progress < 1`, and exactly `end` once `progress >= 1`. -/
def animateDisplayed (start e_nd duration elapsed : ℚ) : ℚ :=
  let progress := min (elapsed / duration) 1
  if progress < 1 then jsToFixed1 (start + (e_nd - start) * progress)
  else e_nd

/-- `jsToFixed1` is monotone. -/
theorem jsToFixed1_mono {x y : ℚ} (h : x ≤ y) : jsToFixed1 x ≤ jsToFixed1 y := by
  unfold jsToFixed1
  have hfloor : ⌊10 * x + 1 / 2⌋ ≤ ⌊10 * y + 1 / 2⌋ := by
    apply Int.floor_le_floor
    nlinarith
  have : ((⌊10 * x + 1 / 2⌋ : ℤ) : ℚ) ≤ ((⌊10 * y + 1 / 2⌋ : ℤ) : ℚ) := by
    exact_mod_cast hfloor
  linarith

/-- During the animation (`0 ≤ elapsed < duration`) the displayed value is
the rounded interpolation. -/
theorem animateDisplayed_of_lt (start e_nd duration elapsed : ℚ)
    (hd : 0 < duration) (h0 : 0 ≤ elapsed) (hlt : elapsed < duration) :
    animateDisplayed start e_nd duration elapsed =
      jsToFixed1 (start + (e_nd - start) * (elapsed / duration)) := by
  unfold animateDisplayed
  have hp : elapsed / duration < 1 := (div_lt_one hd).mpr hlt
  rw [min_eq_left (le_of_lt hp)]
  rw [if_pos hp]

/-- C7 counterexample: the claim says the displayed value equals `start` at
`t = 0` and is the exact linear interpolation throughout, but the code
renders each frame with `toFixed(1)`.  At
`animateNumber(el, 0.25, 1, 2000)` the very first frame displays 0.3, not
the start value 0.25. -/
theorem c7_toFixed_drift :
    animateDisplayed (1 / 4 : ℚ) 1 2000 0 = 3 / 10 ∧
    (3 / 10 : ℚ) ≠ 1 / 4 := by
  constructor
  · rw [animateDisplayed_of_lt _ _ _ _ (by norm_num) le_rfl (by norm_num)]
    unfold jsToFixed1
    norm_num
  · norm_num

/-- C7 (amended): with `duration > 0`, the displayed value at `t = 0` is
`start` rounded to one decimal; while `elapsed < duration` it is the linear
interpolation `start + (end - start) · (elapsed/duration)` rounded to one
decimal, hence monotone nondecreasing in `elapsed` over the animation phase
when `end ≥ start`; and at or after `duration` it is pinned to exactly
`end`, with no drift from the final interpolated frame. -/
theorem c7_animate_number (start e_nd duration : ℚ) (hd : 0 < duration) :
    (animateDisplayed start e_nd duration 0 = jsToFixed1 start) ∧
    (∀ t : ℚ, 0 ≤ t → t < duration →
      animateDisplayed start e_nd duration t =
        jsToFixed1 (start + (e_nd - start) * (t / duration))) ∧
    (∀ t1 t2 : ℚ, 0 ≤ t1 → t1 ≤ t2 → t2 < duration → start ≤ e_nd →
      animateDisplayed start e_nd duration t1 ≤
        animateDisplayed start e_nd duration t2) ∧
    (∀ t : ℚ, duration ≤ t → animateDisplayed start e_nd duration t = e_nd) := by
  refine ⟨?_, ?_, ?_, ?_⟩
  · rw [animateDisplayed_of_lt _ _ _ _ hd le_rfl hd]
    norm_num
  · intro t h0 hlt
    exact animateDisplayed_of_lt _ _ _ _ hd h0 hlt
  · intro t1 t2 h0 h12 h2 hse
    rw [animateDisplayed_of_lt _ _ _ _ hd h0 (lt_of_le_of_lt h12 h2),
      animateDisplayed_of_lt _ _ _ _ hd (le_trans h0 h12) h2]
    apply jsToFixed1_mono
    have hdiv : t1 / duration ≤ t2 / duration := by gcongr
    have hmul := mul_le_mul_of_nonneg_left hdiv
      (by linarith : (0 : ℚ) ≤ e_nd - start)
    linarith
  · intro t hge
    unfold animateDisplayed
    have hp : (1 : ℚ) ≤ t / duration := (one_le_div hd).mpr hge
    rw [min_eq_right hp]
    simp

/-- Witness for C7 (amended) at `start = 0`, `end = 1`, `duration = 2000`:
the frame at `t = 500` shows the rounded interpolation and the frame at
`t = 2000` shows exactly 1. -/
theorem c7_animate_number_witness :
    (0 : ℚ) < 2000 ∧
    animateDisplayed 0 1 2000 0 = jsToFixed1 0 ∧
    animateDisplayed 0 1 2000 500 = jsToFixed1 (0 + (1 - 0) * (500 / 2000)) ∧
    animateDisplayed 0 1 2000 2000 = 1 :=
  ⟨by norm_num,
   (c7_animate_number 0 1 2000 (by norm_num)).1,
   (c7_animate_number 0 1 2000 (by norm_num)).2.1 500 (by norm_num) (by norm_num),
   (c7_animate_number 0 1 2000 (by norm_num)).2.2.2 2000 le_rfl⟩

/-!
### API client (`ClimateAPI`, scripts.js 543–587)

The constructor reads `localStorage.getItem('auth_token')`, which yields a
string or `null` — modelled as `Option String`.  `request` builds
`config = { headers: { 'Content-Type': ..., ...(this.token && {
Authorization: ... }) }, ...options }`: the token gate is JavaScript
truthiness (`null` and `""` are both falsy), and a caller-supplied
`options.headers` property overwrites the whole default headers object
because `...options` is spread after `headers`.

`fetch` is an oracle: either a network error, or a response with an HTTP
status and a body whose JSON parse either succeeds with a value of the
abstract payload type `J` or rejects with a message.
-/

/-- The `options` argument of `ClimateAPI.request`, restricted to the
properties the merge can observe: a `headers` own-property (if present it
replaces the default headers object wholesale) plus opaque extras such as
`method` and `body`. -/
structure RequestOptions where
  headers : Option (List (String × String)) := none
  method : Option String := none
  body : Option String := none
deriving DecidableEq, Repr

namespace ClimateAPI

/-- The headers of the `config` object built by `request` from the
constructor-loaded token (`none` = `localStorage` returned `null`) and the
caller options.  `...(this.token && { Authorization: ... })` adds the
bearer entry only when the token is truthy (non-null and non-empty); the
trailing `...options` replaces the whole object when the caller supplied
`headers`. -/
def requestHeaders (token : Option String) (opts : RequestOptions) :
    List (String × String) :=
  match opts.headers with
  | some h => h
  | none =>
    ("Content-Type", "application/json") ::
      (match token with
       | some t => if t = "" then [] else [("Authorization", "Bearer " ++ t)]
       | none => [])

/-- The outcome `fetch` hands back to `request`'s `try` block. -/
inductive FetchResult (J : Type) where
  | networkError (msg : String)
  | response (status : ℕ) (body : Except String J)

/-- `Response.ok`: status in the 2xx range. -/
def respOk (status : ℕ) : Bool :=
  200 ≤ status && status < 300

/-- What one call to `request` produces: the value returned or the error
re-raised to the caller, the `console.error` log entries, and the toasts
shown. -/
structure RequestOutcome (J : Type) where
  result : Except String J
  logged : List String
  toasts : List Toast

/-- The body of `ClimateAPI.request` (scripts.js 558–570) after `fetch`
resolves: `if (!response.ok) throw new Error(...)`, then
`return await response.json()`; the `catch` block logs the error, shows one
"API request failed" error toast, and re-throws. -/
def requestRun {J : Type} (fr : FetchResult J) : RequestOutcome J :=
  match fr with
  | .networkError m =>
    ⟨Except.error m, [m], [⟨"API request failed", ToastType.error⟩]⟩
  | .response status body =>
    if respOk status then
      match body with
      | .ok j => ⟨Except.ok j, [], []⟩
      | .error m =>
        ⟨Except.error m, [m], [⟨"API request failed", ToastType.error⟩]⟩
    else
      let m := "HTTP error! status: " ++ toString status
      ⟨Except.error m, [m], [⟨"API request failed", ToastType.error⟩]⟩

end ClimateAPI

/-- C2: a non-2xx response makes `ClimateAPI.request` fail with the
HTTP-status error; every failure (network error, status error, or body
parse error) is logged, surfaces exactly one "API request failed" error
toast, and is re-raised to the caller; a successful response returns the
parsed JSON body with no toast and no log. -/
theorem c2_request_errors (J : Type) (fr : ClimateAPI.FetchResult J) :
    (∀ (status : ℕ) (body : Except String J),
      fr = ClimateAPI.FetchResult.response status body →
      ClimateAPI.respOk status = false →
      (ClimateAPI.requestRun fr).result =
        Except.error ("HTTP error! status: " ++ toString status)) ∧
    (∀ e : String, (ClimateAPI.requestRun fr).result = Except.error e →
      (ClimateAPI.requestRun fr).toasts =
        [⟨"API request failed", ToastType.error⟩] ∧
      (ClimateAPI.requestRun fr).logged = [e]) ∧
    (∀ (status : ℕ) (j : J),
      fr = ClimateAPI.FetchResult.response status (Except.ok j) →
      ClimateAPI.respOk status = true →
      (ClimateAPI.requestRun fr).result = Except.ok j ∧
      (ClimateAPI.requestRun fr).toasts = [] ∧
      (ClimateAPI.requestRun fr).logged = []) := by
  refine ⟨?_, ?_, ?_⟩
  · intro status body hfr hok
    subst hfr
    simp [ClimateAPI.requestRun, hok]
  · intro e herr
    cases fr with
    | networkError m =>
      simp only [ClimateAPI.requestRun, Except.error.injEq] at herr
      subst herr
      exact ⟨rfl, rfl⟩
    | response status body =>
      by_cases hok : ClimateAPI.respOk status = true
      · cases body with
        | ok j =>
          simp [ClimateAPI.requestRun, hok] at herr
        | error m =>
          simp only [ClimateAPI.requestRun, hok, if_true,
            Except.error.injEq] at herr
          subst herr
          simp [ClimateAPI.requestRun, hok]
      · rw [Bool.not_eq_true] at hok
        simp only [ClimateAPI.requestRun, hok, Bool.false_eq_true,
          if_false, Except.error.injEq] at herr
        subst herr
        simp [ClimateAPI.requestRun, hok]
  · intro status j hfr hok
    subst hfr
    simp [ClimateAPI.requestRun, hok]

/-- Witness for C2 at the concrete responses: status 404 re-raises the
HTTP-status error with one error toast, and status 200 returns the body. -/
theorem c2_request_errors_witness :
    ((ClimateAPI.requestRun
        (ClimateAPI.FetchResult.response 404 (Except.ok (0 : ℕ)))).result =
      Except.error ("HTTP error! status: " ++ toString 404)) ∧
    ((ClimateAPI.requestRun
        (ClimateAPI.FetchResult.response 404 (Except.ok (0 : ℕ)))).toasts =
      [⟨"API request failed", ToastType.error⟩]) ∧
    ((ClimateAPI.requestRun
        (ClimateAPI.FetchResult.response 200 (Except.ok (7 : ℕ)))).result =
      Except.ok 7) :=
  have h404 := (c2_request_errors ℕ
    (ClimateAPI.FetchResult.response 404 (Except.ok 0))).1 404 (Except.ok 0)
    rfl (by decide)
  ⟨h404,
   ((c2_request_errors ℕ
      (ClimateAPI.FetchResult.response 404 (Except.ok 0))).2.1 _ h404).1,
   ((c2_request_errors ℕ
      (ClimateAPI.FetchResult.response 200 (Except.ok 7))).2.2 200 7 rfl
      (by decide)).1⟩

/-- C3 counterexample: two requests falsify the claim as stated.  With the
stored token `""` (a loaded token), the Authorization header is omitted
rather than carrying `Bearer <token>` (the truthiness gate drops the empty
string); and with a loaded non-empty token but caller-supplied `headers`,
the Authorization header is dropped entirely. -/
theorem c3_token_header_counterexample :
    List.lookup "Authorization"
        (ClimateAPI.requestHeaders (some "") ⟨none, none, none⟩) ≠
      some ("Bearer " ++ "") ∧
    List.lookup "Authorization"
        (ClimateAPI.requestHeaders (some "tok") ⟨some [], none, none⟩) =
      none := by
  decide

/-- C3 (amended): for every request whose options do not supply their own
`headers` property, a loaded non-empty token puts exactly
`Bearer <token>` in the Authorization header, while a missing token — or
the stored empty string, which the truthiness gate treats as missing —
yields no Authorization header at all (not an empty one). -/
theorem c3_bearer_header (token : Option String) (opts : RequestOptions)
    (hdef : opts.headers = none) :
    (∀ t : String, token = some t → t ≠ "" →
      List.lookup "Authorization" (ClimateAPI.requestHeaders token opts) =
        some ("Bearer " ++ t)) ∧
    (token = none ∨ token = some "" →
      List.lookup "Authorization" (ClimateAPI.requestHeaders token opts) =
        none) := by
  constructor
  · intro t ht hne
    subst ht
    simp [ClimateAPI.requestHeaders, hdef, hne, List.lookup]
  · intro h
    rcases h with h | h <;> subst h <;>
      simp [ClimateAPI.requestHeaders, hdef, List.lookup]

/-- Witness for C3 (amended): with stored token "tok" and default options
the header is exactly `Bearer tok`; with no stored token it is absent. -/
theorem c3_bearer_header_witness :
    (List.lookup "Authorization"
        (ClimateAPI.requestHeaders (some "tok") ⟨none, none, none⟩) =
      some ("Bearer " ++ "tok")) ∧
    (List.lookup "Authorization"
        (ClimateAPI.requestHeaders none ⟨none, none, none⟩) = none) :=
  ⟨(c3_bearer_header (some "tok") ⟨none, none, none⟩ rfl).1 "tok" rfl
    (by decide),
   (c3_bearer_header none ⟨none, none, none⟩ rfl).2 (Or.inl rfl)⟩

/-- C10: because `...options` is spread after the default `headers`
property, a caller-supplied `headers` object replaces the default headers
wholesale: the resulting config carries exactly the caller's entries, so
Content-Type and the Authorization bearer entry are absent unless the
caller re-includes them. -/
theorem c10_options_replace_headers (token : Option String)
    (opts : RequestOptions) (h : List (String × String))
    (hh : opts.headers = some h) :
    ClimateAPI.requestHeaders token opts = h ∧
    (List.lookup "Content-Type" h = none →
      List.lookup "Content-Type" (ClimateAPI.requestHeaders token opts) =
        none) ∧
    (List.lookup "Authorization" h = none →
      List.lookup "Authorization" (ClimateAPI.requestHeaders token opts) =
        none) := by
  have heq : ClimateAPI.requestHeaders token opts = h := by
    simp [ClimateAPI.requestHeaders, hh]
  exact ⟨heq, fun hc => heq ▸ hc, fun ha => heq ▸ ha⟩

/-- Witness for C10: with the stored token "tok" and caller headers
`[("X-Custom", "1")]`, the sent headers are exactly the caller's, with no
Content-Type and no Authorization. -/
theorem c10_options_replace_headers_witness :
    ClimateAPI.requestHeaders (some "tok")
        ⟨some [("X-Custom", "1")], none, none⟩ = [("X-Custom", "1")] ∧
    List.lookup "Authorization"
        (ClimateAPI.requestHeaders (some "tok")
          ⟨some [("X-Custom", "1")], none, none⟩) = none :=
  ⟨(c10_options_replace_headers (some "tok")
      ⟨some [("X-Custom", "1")], none, none⟩ [("X-Custom", "1")] rfl).1,
   (c10_options_replace_headers (some "tok")
      ⟨some [("X-Custom", "1")], none, none⟩ [("X-Custom", "1")] rfl).2.2
      (by decide)⟩

end ClimateCoach
